import Mathlib

/-
Verification of the meta-mcp repository: a shallow embedding of its three
server variants and the token store, with theorems settling the spec claims.

Source files:
  * server.js          - connector-mediated variant (class MetaAdsMCPServer)
  * part_000           - the "FIXED VERSION" connector variant (array registry,
                         notifications handling, mock executors)
  * part_001           - direct-OAuth variant (tokensByUser map, OAuth callback)

JavaScript values are embedded as follows: numbers reaching arithmetic are
rationals; NaN is the `none` of `Option` rationals; dynamically typed report
cells are abstracted by how `parseFloat(v || 0)` treats them (a number, a
numeric string, a falsy value, or a truthy value parseFloat cannot parse);
upstream HTTP exchanges are function parameters returning `Except`, with the
issued calls recorded in an explicit trace.
-/

/-- A report-row cell value as seen by calculateSummary: a JS number, a string
parseFloat parses to a rational, a falsy value (empty string, null, false),
or a truthy value parseFloat turns into NaN (for example a non-numeric
string or an object). -/
inductive CellVal
  | num (q : ℚ)
  | numStr (q : ℚ)
  | falsyCell
  | nonNumeric
deriving DecidableEq

/-- A report row: the JS object `item`, as an association list of metric name
to cell value; an absent key is an absent property. -/
abbrev Row := List (String × CellVal)

/-- JS property lookup `item[metric]`. -/
def cellLookup : Row → String → Option CellVal
  | [], _ => none
  | (k, v) :: rest, m => if k = m then some v else cellLookup rest m

/-- The value of `parseFloat(item[metric] || 0)` for one cell, with NaN as
`none`: an absent or falsy value coerces to 0 (a number 0 is falsy and
`|| 0` yields 0 again, so `num 0` is consistent), a number or numeric string
keeps its value, and a truthy non-numeric value gives NaN. -/
def parsedCell : Option CellVal → Option ℚ
  | none => some 0
  | some (.num q) => some q
  | some (.numStr q) => some q
  | some .falsyCell => some 0
  | some .nonNumeric => none

/-- JS `+` on possibly-NaN numbers: NaN absorbs. -/
def qAdd : Option ℚ → Option ℚ → Option ℚ
  | some a, some b => some (a + b)
  | _, _ => none

/-- JS `/` by a positive row count on a possibly-NaN numerator. -/
def qDivNat : Option ℚ → Nat → Option ℚ
  | some a, n => some (a / (n : ℚ))
  | none, _ => none

/-- The rate-like test of calculateSummary (server.js line 365, part_000
line 385): ctr, cpc and cpm are averaged, everything else summed. -/
def isRateLike (m : String) : Bool :=
  m = "ctr" || m = "cpc" || m = "cpm"

/-- The reduce of calculateSummary over one metric:
`data.reduce((sum, item) => sum + parseFloat(item[metric] || 0), 0)`. -/
def sumMetric (data : List Row) (m : String) : Option ℚ :=
  data.foldl (fun s item => qAdd s (parsedCell (cellLookup item m))) (some 0)

/-- server.js lines 359-375 and part_000 lines 379-393, calculateSummary:
empty (or null) data yields the empty object; otherwise each requested
metric gets the reduce result, divided by data.length when rate-like. -/
def calculateSummary (data : List Row) (metrics : List String) : List (String × Option ℚ) :=
  if data = [] then []
  else metrics.map (fun m =>
    (m, if isRateLike m then qDivNat (sumMetric data m) data.length else sumMetric data m))

/-- The claim C2 reading of a cell: a missing or non-numeric value counts as
zero, numbers and numeric strings keep their value. -/
def cellZero : Option CellVal → ℚ
  | none => 0
  | some (.num q) => q
  | some (.numStr q) => q
  | some .falsyCell => 0
  | some .nonNumeric => 0

/-- The summary described by claim C2 (stated from the claim wording, to be
compared with calculateSummary): mean for rate-like metrics, sum otherwise,
every missing or non-numeric cell treated as zero, empty rows give the empty
object. -/
def claimSummary (data : List Row) (metrics : List String) : List (String × ℚ) :=
  if data = [] then []
  else metrics.map (fun m =>
    (m, if isRateLike m then
          ((data.map (fun item => cellZero (cellLookup item m))).sum) / (data.length : ℚ)
        else (data.map (fun item => cellZero (cellLookup item m))).sum))

/-- part_001 lines 14-17, the stored credential of one user. -/
structure Tokens where
  accessToken : String
  expiresAt : Option Int
deriving DecidableEq

/-- part_001 line 18, `tokensByUser : Map<string, Tokens>`, as an association
list in insertion order. -/
abbrev Store := List (String × Tokens)

/-- JS `Map.get`. -/
def storeGet : Store → String → Option Tokens
  | [], _ => none
  | (k, v) :: rest, key => if k = key then some v else storeGet rest key

/-- JS `Map.set`: overwrite in place, else append. -/
def storeSet : Store → String → Tokens → Store
  | [], key, v => [(key, v)]
  | (k, v') :: rest, key, v =>
    if k = key then (key, v) :: rest else (k, v') :: storeSet rest key v

/-- The environment configuration the handlers read: META_REDIRECT_URI
(part_001) and AUTH_BASE_URL (server.js, optional). -/
structure Env where
  metaRedirectUri : String
  authBaseUrl : Option String
deriving DecidableEq

/-- JS `a || d` for an optional string: absent or empty falls back. -/
def jsOrStr : Option String → String → String
  | some s, d => if s = "" then d else s
  | none, d => d

/-- JS template interpolation of a possibly-undefined string. -/
def jsStr : Option String → String
  | some s => s
  | none => "undefined"

/-- JS `n || d` for an optional number: absent or 0 falls back. -/
def jsOrNum : Option Int → Int → Int
  | some n, d => if n = 0 then d else n
  | none, d => d

/-- JS `if (s) ...` truthiness for an optional string parameter. -/
def jsTruthyStr : Option String → Option String
  | some s => if s = "" then none else some s
  | none => none

/-- Tool arguments (`params.arguments`), flattened over every field any
variant reads; an absent field is `none`. -/
structure Args where
  resource_type : Option String
  id : Option String
  limit : Option Int
  status : Option String
  date_preset : Option String
  metrics : Option (List String)
  breakdown : Option String
deriving DecidableEq

/-- A parsed JSON-RPC request at POST /mcp: method, id, the x-user-id header
(server.js), and the tools/call params. -/
structure McpReq where
  method : String
  id : Option Int
  userId : Option String
  name : Option String
  args : Args
deriving DecidableEq

/-- A registered tool: name, description and the required argument names of
its input schema. -/
structure ToolDef where
  name : String
  description : String
  required : List String
deriving DecidableEq

/-- part_001 lines 66-91: the two statically declared tools. -/
def toolsPart001 : List ToolDef :=
  [⟨"meta_ads_get", "Get campaign/adset/ad by ID", ["resource_type", "id"]⟩,
   ⟨"meta_ads_query", "Query campaigns/adsets/ads", ["resource_type"]⟩]

/-- server.js lines 13-90 (object registry, Object.values in insertion order)
and part_000 lines 14-88 (array registry): the same three tools. -/
def toolsSrv : List ToolDef :=
  [⟨"meta_ads_get", "Get Meta Ads campaign, ad set, or ad by ID", ["resource_type", "id"]⟩,
   ⟨"meta_ads_query", "Query Meta Ads campaigns with filters", ["resource_type"]⟩,
   ⟨"meta_ads_report", "Generate Meta Ads performance report with insights", []⟩]

/-- The fixed initialize result payload. -/
structure InitPayload where
  protocolVersion : String
  toolsListChanged : Option Bool
  serverName : String
  serverVersion : String
deriving DecidableEq

/-- part_001 lines 96-106: capabilities `tools: ` with no listChanged flag. -/
def initPart001 : InitPayload := ⟨"2024-11-05", none, "Meta Ads MCP", "1.0.0"⟩

/-- server.js lines 122-137 and part_000 lines 139-158: listChanged true. -/
def initSrv : InitPayload := ⟨"2024-11-05", some true, "Meta Ads Business MCP Server", "1.0.0"⟩

/-- An outbound HTTP exchange issued by part_001: a Graph API object GET, a
Graph API collection GET, or a call to the OAuth token endpoint
(graph.facebook.com oauth/access_token). The code exchange in the callback
is the only token-endpoint call shape in the source. -/
inductive Outbound
  | getById (rid : String) (fields : String) (accessToken : String)
  | getCollection (resourceType : String) (limit : Int) (accessToken : String)
  | codeExchange (code : String)
deriving DecidableEq

/-- A call to the OAuth token endpoint, the shape a refresh exchange would
have to take. -/
def isTokenEndpoint : Outbound → Bool
  | .codeExchange _ => true
  | _ => false

/-- How many token-endpoint exchanges a trace contains. -/
def countTokenCalls (l : List Outbound) : Nat :=
  (l.filter isTokenEndpoint).length

/-- A Pipedream connector exchange issued by server.js executors. -/
inductive PdCall
  | getResource (resourceType : String) (rid : String)
  | listResources (resourceType : String) (limit : Int) (status : Option String)
  | getInsights (preset : String) (fields : List String) (level : String)
deriving DecidableEq

/-- A connector response body: its serialized form plus the `data` rows the
report path aggregates. -/
structure PdData where
  raw : String
  rows : List Row
deriving DecidableEq

/-- The value a server.js or part_000 executor returns, which the dispatcher
stringifies into the result content (timestamps abstracted away).
`errObj` is the catch-all `error: true, message` object. -/
inductive ToolOut
  | getRes (resourceType : String) (rid : String) (raw : String)
  | queryRes (resourceType : String) (limit : Int) (count : Nat) (raw : String)
  | reportRes (preset : String) (summary : List (String × Option ℚ)) (raw : String)
  | mockGet (resourceType : String) (rid : String)
  | mockQuery (resourceType : String) (limit : Int) (status : Option String)
  | mockReport (preset : String) (metrics : List String) (breakdown : Option String)
  | errObj (message : String)
deriving DecidableEq

/-- One item of a result content array: a literal text, or the
JSON.stringify rendering of an executor result. -/
inductive ContentItem
  | text (s : String)
  | jsonText (v : ToolOut)
deriving DecidableEq

/-- The `result` member of a successful JSON-RPC envelope. -/
inductive RpcResult
  | initRes (p : InitPayload)
  | toolsRes (ts : List ToolDef)
  | contentRes (items : List ContentItem)
deriving DecidableEq

/-- The JSON-RPC response body written by a handler: a result envelope, an
error envelope, or a bare acknowledgement with no body at all. -/
inductive Resp
  | result (id : Option Int) (r : RpcResult)
  | rpcError (id : Option Int) (code : Int) (message : String)
  | noBody
deriving DecidableEq

/-- Whether a response is a JSON-RPC error envelope. -/
def Resp.isErr : Resp → Bool
  | .rpcError _ _ _ => true
  | _ => false

/-- Result of one part_001 POST /mcp dispatch: the token store afterwards,
the trace of outbound exchanges, the HTTP status, and the body. -/
structure McpOut where
  store : Store
  calls : List Outbound
  status : Nat
  resp : Resp
deriving DecidableEq

/-- part_001 lines 93-147, `app.post("/mcp")`: initialize and tools/list are
fixed; tools/call reads the hardcoded "default" user from tokensByUser,
answers a successful auth-prompt envelope when no credential is stored,
otherwise issues the Graph API call for meta_ads_get (fields id,name,status)
or meta_ads_query (`limit: args.limit || 10`); every other case, including a
tools/call with an unmatched tool name, falls through to the 400 response
with error -32601 "Method not found". The store is never written here. -/
def mcpPost (env : Env) (store : Store) (fetch : Outbound → String) (req : McpReq) : McpOut :=
  if req.method = "initialize" then
    ⟨store, [], 200, .result req.id (.initRes initPart001)⟩
  else if req.method = "tools/list" then
    ⟨store, [], 200, .result req.id (.toolsRes toolsPart001)⟩
  else if req.method = "tools/call" then
    match storeGet store "default" with
    | none =>
      ⟨store, [], 200, .result req.id (.contentRes
        [.text ("🔐 Authenticate here: " ++ env.metaRedirectUri ++ "?userId=default")])⟩
    | some token =>
      if req.name = some "meta_ads_get" then
        let c := Outbound.getById (jsStr req.args.id) "id,name,status" token.accessToken
        ⟨store, [c], 200, .result req.id (.contentRes [.text (fetch c)])⟩
      else if req.name = some "meta_ads_query" then
        let c := Outbound.getCollection (jsStr req.args.resource_type)
          (jsOrNum req.args.limit 10) token.accessToken
        ⟨store, [c], 200, .result req.id (.contentRes [.text (fetch c)])⟩
      else
        ⟨store, [], 400, .rpcError req.id (-32601) "Method not found"⟩
  else
    ⟨store, [], 400, .rpcError req.id (-32601) "Method not found"⟩

/-- The body of the token-endpoint answer in the OAuth callback:
`data.access_token` and `data.expires_in` (a ttl in seconds). -/
structure ExchangeData where
  access_token : String
  expires_in : Int
deriving DecidableEq

/-- The HTTP answer of the OAuth callback: confirmation HTML, or the 500
JSON diagnostic. -/
inductive CallbackResp
  | html (s : String)
  | err500 (msg : String) (details : String)
deriving DecidableEq

/-- part_001 lines 38-63, `app.get("/auth/meta/callback")`: read code and
state with JS defaulting, run the code exchange against the token endpoint
(modelled by `exchange`), on success overwrite the credential keyed by state
with `expiresAt = Date.now() + expires_in * 1000` and send confirmation
HTML naming the user; on failure answer 500 and leave the store alone. -/
def authMetaCallback (store : Store) (now : Int) (codeQ stateQ : Option String)
    (exchange : String → Except String ExchangeData) : Store × CallbackResp :=
  let code := jsOrStr codeQ ""
  let state := jsOrStr stateQ "default"
  match exchange code with
  | .ok d =>
    (storeSet store state ⟨d.access_token, some (now + d.expires_in * 1000)⟩,
     .html ("✅ Meta Ads Connected! User: " ++ state ++
            ". Token saved, you can now use Claude tools."))
  | .error e => (store, .err500 "OAuth exchange failed" e)

/-- server.js lines 221-226, getAuthURL: AUTH_BASE_URL with a fallback. -/
def getAuthURL (env : Env) (userId : Option String) : String :=
  jsOrStr env.authBaseUrl "https://connect.businessmcp.com" ++
    "/auth/connect?service=meta_ads&user=" ++ jsStr userId ++ "&return_to=claude"

/-- server.js lines 154-165: the auth-prompt text for an unauthenticated
tools/call. -/
def authRequiredText (env : Env) (userId : Option String) : String :=
  "🔐 Meta Ads authentication required!\n\n🔗 Connect your Meta Ads account: " ++
    getAuthURL env userId ++ "\n\nAfter connecting, please try your request again."

/-- server.js lines 249-279, getMetaAdsResource: the issued connector call
and either the result object or the thrown failure message. -/
def getMetaAdsResource (pd : PdCall → Except String PdData) (args : Args) :
    PdCall × Except String ToolOut :=
  let rt := jsStr args.resource_type
  let c := PdCall.getResource rt (jsStr args.id)
  (c, match pd c with
      | .ok d => .ok (.getRes rt (jsStr args.id) d.raw)
      | .error e => .error ("Failed to get " ++ rt ++ ": " ++ e))

/-- server.js lines 281-315, queryMetaAds: destructuring default
`limit = 25`, status forwarded only when truthy, count from
`data.data?.length`. -/
def queryMetaAds (pd : PdCall → Except String PdData) (args : Args) :
    PdCall × Except String ToolOut :=
  let rt := jsStr args.resource_type
  let lim := args.limit.getD 25
  let c := PdCall.listResources rt lim (jsTruthyStr args.status)
  (c, match pd c with
      | .ok d => .ok (.queryRes rt lim d.rows.length d.raw)
      | .error e => .error ("Failed to query " ++ rt ++ ": " ++ e))

/-- The default metrics list of the report tool. -/
def defaultMetrics : List String :=
  ["impressions", "clicks", "spend", "ctr", "cpc"]

/-- server.js lines 317-357, generateMetaAdsReport: destructuring defaults,
level `breakdown || campaign`, summary from calculateSummary over the
returned rows. -/
def generateMetaAdsReport (pd : PdCall → Except String PdData) (args : Args) :
    PdCall × Except String ToolOut :=
  let preset := args.date_preset.getD "last_30d"
  let ms := args.metrics.getD defaultMetrics
  let c := PdCall.getInsights preset ms (jsOrStr args.breakdown "campaign")
  (c, match pd c with
      | .ok d => .ok (.reportRes preset (calculateSummary d.rows ms) d.raw)
      | .error e => .error ("Failed to generate report: " ++ e))

/-- The catch in executeTool: a thrown message becomes the in-band error
object. -/
def unwrapCatch : Except String ToolOut → ToolOut
  | .ok v => v
  | .error e => .errObj e

/-- server.js lines 228-247 and part_000 lines 267-287, executeTool: switch
on the tool name; the default branch throws `Unknown tool: name`, and the
surrounding catch converts every throw into the error object, so the
function itself never fails. Returns the issued connector calls too. -/
def executeTool (pd : PdCall → Except String PdData) (name : String) (args : Args) :
    List PdCall × ToolOut :=
  if name = "meta_ads_get" then
    let r := getMetaAdsResource pd args
    ([r.1], unwrapCatch r.2)
  else if name = "meta_ads_query" then
    let r := queryMetaAds pd args
    ([r.1], unwrapCatch r.2)
  else if name = "meta_ads_report" then
    let r := generateMetaAdsReport pd args
    ([r.1], unwrapCatch r.2)
  else ([], .errObj ("Unknown tool: " ++ name))

/-- Result of one server.js dispatch: connector calls, HTTP status, body. -/
structure SrvOut where
  calls : List PdCall
  status : Nat
  resp : Resp
deriving DecidableEq

/-- server.js lines 114-197, handleMCPRequest: initialize and tools/list are
fixed; tools/call checks authentication (the checkUserAuth network result is
the `auth` argument) and on failure answers a successful envelope with the
auth prompt, otherwise wraps the executeTool result as stringified content;
any other method, notifications included, gets the 400 error -32601. -/
def handleMCPRequest (env : Env) (auth : Bool) (pd : PdCall → Except String PdData)
    (req : McpReq) : SrvOut :=
  if req.method = "initialize" then
    ⟨[], 200, .result req.id (.initRes initSrv)⟩
  else if req.method = "tools/list" then
    ⟨[], 200, .result req.id (.toolsRes toolsSrv)⟩
  else if req.method = "tools/call" then
    if auth = false then
      ⟨[], 200, .result req.id (.contentRes [.text (authRequiredText env req.userId)])⟩
    else
      let r := executeTool pd (jsStr req.name) req.args
      ⟨r.1, 200, .result req.id (.contentRes [.jsonText r.2])⟩
  else
    ⟨[], 400, .rpcError req.id (-32601) "Method not found"⟩

/-- part_000 lines 267-377, executeTool of the FIXED variant: the same
switch, but every known tool answers mock data locally; meta_ads_query
defaults `limit = 25`, meta_ads_report defaults preset and metrics. -/
def executeToolP0 (name : String) (args : Args) : ToolOut :=
  if name = "meta_ads_get" then
    .mockGet (jsStr args.resource_type) (jsStr args.id)
  else if name = "meta_ads_query" then
    .mockQuery (jsStr args.resource_type) (args.limit.getD 25) args.status
  else if name = "meta_ads_report" then
    .mockReport (args.date_preset.getD "last_30d") (args.metrics.getD defaultMetrics)
      args.breakdown
  else .errObj ("Unknown tool: " ++ name)

/-- An HTTP status plus body, for the part_000 dispatcher. -/
structure HttpOut where
  status : Nat
  resp : Resp
deriving DecidableEq

/-- part_000 lines 131-239, handleMCPRequest of the FIXED variant: same
shape as server.js, except `notifications/initialized` answers a bare
`res.status(200).end()` with no JSON-RPC body, tools/call skips the auth
check, and the unknown-method message names the method. -/
def handleMCPRequestP0 (req : McpReq) : HttpOut :=
  if req.method = "initialize" then
    ⟨200, .result req.id (.initRes initSrv)⟩
  else if req.method = "tools/list" then
    ⟨200, .result req.id (.toolsRes toolsSrv)⟩
  else if req.method = "notifications/initialized" then
    ⟨200, .noBody⟩
  else if req.method = "tools/call" then
    ⟨200, .result req.id (.contentRes [.jsonText (executeToolP0 (jsStr req.name) req.args)])⟩
  else
    ⟨400, .rpcError req.id (-32601) ("Method not found: " ++ req.method)⟩

/-- A concrete environment for closed evaluations. -/
def env0 : Env := ⟨"https://example.com/auth/meta/callback", none⟩

/-- A concrete upstream serializer for closed evaluations. -/
def fetch0 : Outbound → String := fun _ => "graph-data"

/-- A concrete failing connector for closed evaluations. -/
def pd0 : PdCall → Except String PdData := fun _ => Except.error "offline"

/-- Empty tool arguments. -/
def args0 : Args := ⟨none, none, none, none, none, none, none⟩

/-- Arguments of a meta_ads_get call on campaign 123. -/
def argsGet0 : Args := ⟨some "campaign", some "123", none, none, none, none, none⟩

/-- Arguments of a meta_ads_query call on campaigns with limit omitted. -/
def argsQuery0 : Args := ⟨some "campaigns", none, none, none, none, none, none⟩

/-- A stored credential that expired at time 0. -/
def tok0 : Tokens := ⟨"tok0", some 0⟩

/-- A store holding the expired credential for the default user. -/
def store0 : Store := [("default", tok0)]

/-- A tools/call request for meta_ads_get. -/
def reqGet0 : McpReq := ⟨"tools/call", some 1, none, some "meta_ads_get", argsGet0⟩

/-- A row whose ctr cell is a truthy non-numeric value. -/
def rowBad : Row := [("ctr", CellVal.nonNumeric)]

/-- The claim-side zero reading agrees with getD 0 over the parsed cell. -/
theorem parsedCell_getD (c : Option CellVal) : (parsedCell c).getD 0 = cellZero c := by
  cases c with
  | none => rfl
  | some v => cases v <;> rfl

/-- Once the reduce accumulator is NaN it stays NaN. -/
theorem foldl_qAdd_none_rows (data : List Row) (m : String) :
    data.foldl (fun s item => qAdd s (parsedCell (cellLookup item m))) none = none := by
  induction data with
  | nil => rfl
  | cons r rest ih =>
    have h : qAdd none (parsedCell (cellLookup r m)) = none := by
      cases parsedCell (cellLookup r m) <;> rfl
    simpa [h] using ih

/-- The reduce over one metric: NaN exactly when some row has a truthy
non-numeric cell for it, else the plain rational sum. -/
theorem foldl_qAdd_rows (data : List Row) (m : String) (a : ℚ) :
    data.foldl (fun s item => qAdd s (parsedCell (cellLookup item m))) (some a) =
      if data.any (fun item => (parsedCell (cellLookup item m)).isNone) then none
      else some (a + (data.map (fun item => cellZero (cellLookup item m))).sum) := by
  induction data generalizing a with
  | nil => simp
  | cons r rest ih =>
    cases hc : parsedCell (cellLookup r m) with
    | none =>
      have hstep : qAdd (some a) (parsedCell (cellLookup r m)) = none := by
        rw [hc]; rfl
      simp only [List.foldl_cons]
      rw [hstep, foldl_qAdd_none_rows]
      simp [hc]
    | some b =>
      have hstep : qAdd (some a) (parsedCell (cellLookup r m)) = some (a + b) := by
        rw [hc]; rfl
      have hz : cellZero (cellLookup r m) = b := by
        rw [← parsedCell_getD, hc]; rfl
      have hany : (r :: rest).any (fun item => (parsedCell (cellLookup item m)).isNone) =
          rest.any (fun item => (parsedCell (cellLookup item m)).isNone) := by
        simp [hc]
      simp only [List.foldl_cons]
      rw [hstep, ih (a + b), hany]
      simp only [List.map_cons, List.sum_cons, hz]
      rw [add_assoc]

/-- sumMetric characterised without the fold. -/
theorem sumMetric_eq (data : List Row) (m : String) :
    sumMetric data m =
      if data.any (fun item => (parsedCell (cellLookup item m)).isNone) then none
      else some ((data.map (fun item => cellZero (cellLookup item m))).sum) := by
  unfold sumMetric
  rw [foldl_qAdd_rows data m 0]
  simp

/-- Overwriting a key makes it retrievable with the written value. -/
theorem storeGet_storeSet (s : Store) (k : String) (v : Tokens) :
    storeGet (storeSet s k v) k = some v := by
  induction s with
  | nil => simp [storeGet, storeSet]
  | cons p rest ih =>
    by_cases h : p.1 = k
    · simp [storeSet, storeGet, h]
    · simp [storeSet, storeGet, h, ih]

/-- Claim C2, as stated, is false: calculateSummary applies the mean/sum split
and treats a missing cell as zero, but a truthy non-numeric cell is NOT
treated as zero: on the single row holding ctr = non-numeric with metrics
[ctr], the code yields NaN for ctr while the claim demands the mean 0. -/
theorem c2_counterexample :
    calculateSummary [rowBad] ["ctr"] = [("ctr", (none : Option ℚ))] ∧
    claimSummary [rowBad] ["ctr"] = [("ctr", (0 : ℚ))] ∧
    (none : Option ℚ) ≠ some 0 := by
  refine ⟨rfl, ?_, by decide⟩
  norm_num [claimSummary, rowBad, cellLookup, cellZero, isRateLike]

/-- Claim C2 amended: for each requested metric the summary is the mean
(rate-like) or the sum (otherwise) of the rows' values, with a missing or
falsy cell counted as zero, EXCEPT that any row holding a truthy
non-numeric cell for the metric makes that summary entry NaN; the empty row
list yields the empty summary object. -/
theorem c2_amended (data : List Row) (metrics : List String) :
    calculateSummary data metrics =
      if data = [] then []
      else metrics.map (fun m =>
        (m,
          if data.any (fun item => (parsedCell (cellLookup item m)).isNone) then (none : Option ℚ)
          else if isRateLike m then
            some ((data.map (fun item => cellZero (cellLookup item m))).sum / (data.length : ℚ))
          else some ((data.map (fun item => cellZero (cellLookup item m))).sum))) := by
  unfold calculateSummary
  by_cases hd : data = []
  · simp [hd]
  · rw [if_neg hd, if_neg hd]
    refine List.map_congr_left ?_
    intro m _
    rw [sumMetric_eq]
    by_cases hn : data.any (fun item => (parsedCell (cellLookup item m)).isNone)
    · simp [hn, qDivNat]
    · by_cases hr : isRateLike m
      · simp [hn, hr, qDivNat]
      · simp [hn, hr]

/-- Claim C1, as stated, is false: with the stored credential for user
"default" already expired (expiresAt 0, current time 1000000), the
tools/call dispatch performs zero exchanges against the token endpoint, not
exactly one, and leaves the stored credential (hence its expiresAt) exactly
as it was instead of strictly advancing it. -/
theorem c1_counterexample :
    (0 : Int) < 1000000 ∧
    countTokenCalls (mcpPost env0 store0 fetch0 reqGet0).calls = 0 ∧
    ¬ countTokenCalls (mcpPost env0 store0 fetch0 reqGet0).calls = 1 ∧
    storeGet (mcpPost env0 store0 fetch0 reqGet0).store "default" = some ⟨"tok0", some 0⟩ := by
  refine ⟨by decide, rfl, by decide, rfl⟩

/-- Claim C1 amended: the tools/call path consults only the presence of a
stored credential; whatever its expiresAt, it performs no exchange against
the token endpoint and never updates the token store, so an imminent or
past expiry triggers zero refresh calls and the credential is used as-is. -/
theorem c1_amended (env : Env) (store : Store) (fetch : Outbound → String)
    (rid : Option Int) (uid nm : Option String) (args : Args) :
    countTokenCalls (mcpPost env store fetch ⟨"tools/call", rid, uid, nm, args⟩).calls = 0 ∧
    (mcpPost env store fetch ⟨"tools/call", rid, uid, nm, args⟩).store = store := by
  refine ⟨?_, ?_⟩ <;>
  · unfold mcpPost
    repeat' split
    all_goals rfl

/-- Claim C10: every POST /mcp dispatch, whatever the method and tool name,
returns the token store unchanged; in this source the only write to
tokensByUser is the one in the OAuth callback handler. -/
theorem c10_frame (env : Env) (store : Store) (fetch : Outbound → String) (req : McpReq) :
    (mcpPost env store fetch req).store = store := by
  unfold mcpPost
  repeat' split
  all_goals rfl

/-- Claim C3, code behaviour at the failing input: in server.js a tools/call
naming the unregistered tool "bogus" from an authenticated user is caught by
executeTool and answered with a SUCCESSFUL result envelope whose content is
the in-band error object, not a JSON-RPC error envelope; part_001 (token on
file) instead lets an unknown tool name fall through to the generic -32601
error envelope. -/
theorem c3_code_behavior :
    handleMCPRequest env0 true pd0 ⟨"tools/call", some 7, some "u1", some "bogus", args0⟩ =
      ⟨[], 200, .result (some 7) (.contentRes [.jsonText (.errObj "Unknown tool: bogus")])⟩ ∧
    (handleMCPRequest env0 true pd0
      ⟨"tools/call", some 7, some "u1", some "bogus", args0⟩).resp.isErr = false ∧
    (mcpPost env0 store0 fetch0 ⟨"tools/call", some 7, none, some "bogus", args0⟩).resp =
      .rpcError (some 7) (-32601) "Method not found" := by
  exact ⟨rfl, rfl, rfl⟩

/-- Claim C4: a tools/call from a user with no usable credential is answered
with a successful result envelope carrying a human-readable authentication
prompt that embeds the constructed authorization URL, never with a JSON-RPC
error envelope; shown for the server.js unauthenticated path and for
part_001 with an empty token store. -/
theorem c4_auth_prompt (env : Env) (pd : PdCall → Except String PdData)
    (fetch : Outbound → String) (rid : Option Int) (uid nm : Option String) (args : Args) :
    handleMCPRequest env false pd ⟨"tools/call", rid, uid, nm, args⟩ =
      ⟨[], 200, .result rid (.contentRes [.text (authRequiredText env uid)])⟩ ∧
    (∃ pre post, authRequiredText env uid = pre ++ getAuthURL env uid ++ post) ∧
    (handleMCPRequest env false pd ⟨"tools/call", rid, uid, nm, args⟩).resp.isErr = false ∧
    mcpPost env [] fetch ⟨"tools/call", rid, uid, nm, args⟩ =
      ⟨[], [], 200, .result rid (.contentRes
        [.text ("🔐 Authenticate here: " ++ env.metaRedirectUri ++ "?userId=default")])⟩ := by
  refine ⟨rfl, ?_, rfl, rfl⟩
  exact ⟨"🔐 Meta Ads authentication required!\n\n🔗 Connect your Meta Ads account: ",
         "\n\nAfter connecting, please try your request again.", rfl⟩

/-- Claim C5, code behaviour at the failing input: part_000 (the FIXED
variant) answers notifications/initialized with a bare 200 and no JSON-RPC
body, exactly as the claim says, but the server.js and part_001 dispatchers
do not handle the method and answer a 400 JSON-RPC error envelope
(-32601). -/
theorem c5_notifications (rid : Option Int) (uid nm : Option String) (args : Args) :
    handleMCPRequestP0 ⟨"notifications/initialized", rid, uid, nm, args⟩ = ⟨200, .noBody⟩ ∧
    handleMCPRequest env0 true pd0 ⟨"notifications/initialized", rid, uid, nm, args⟩ =
      ⟨[], 400, .rpcError rid (-32601) "Method not found"⟩ ∧
    mcpPost env0 [] fetch0 ⟨"notifications/initialized", rid, uid, nm, args⟩ =
      ⟨[], [], 400, .rpcError rid (-32601) "Method not found"⟩ := by
  exact ⟨rfl, rfl, rfl⟩

/-- Claim C6, as stated, is false: the direct-OAuth variant part_001 declares
only two tools, so its tools/list answers a registry without
meta_ads_report. -/
theorem c6_counterexample :
    (mcpPost env0 [] fetch0 ⟨"tools/list", some 2, none, none, args0⟩).resp =
      .result (some 2) (.toolsRes toolsPart001) ∧
    toolsPart001.map ToolDef.name = ["meta_ads_get", "meta_ads_query"] ∧
    ¬ toolsPart001.map ToolDef.name = ["meta_ads_get", "meta_ads_query", "meta_ads_report"] := by
  exact ⟨rfl, rfl, by decide⟩

/-- Claim C6 amended: tools/list in the server.js and part_000 variants
returns exactly the statically declared three tools meta_ads_get,
meta_ads_query, meta_ads_report in registry insertion order with no
duplicate names; the part_001 variant returns only its two declared tools
(meta_ads_get, meta_ads_query), also in order and without duplicates. -/
theorem c6_tools_list (env : Env) (auth : Bool) (pd : PdCall → Except String PdData)
    (store : Store) (fetch : Outbound → String)
    (rid : Option Int) (uid nm : Option String) (args : Args) :
    handleMCPRequest env auth pd ⟨"tools/list", rid, uid, nm, args⟩ =
      ⟨[], 200, .result rid (.toolsRes toolsSrv)⟩ ∧
    handleMCPRequestP0 ⟨"tools/list", rid, uid, nm, args⟩ =
      ⟨200, .result rid (.toolsRes toolsSrv)⟩ ∧
    toolsSrv.map ToolDef.name = ["meta_ads_get", "meta_ads_query", "meta_ads_report"] ∧
    (toolsSrv.map ToolDef.name).Nodup ∧
    mcpPost env store fetch ⟨"tools/list", rid, uid, nm, args⟩ =
      ⟨store, [], 200, .result rid (.toolsRes toolsPart001)⟩ ∧
    (toolsPart001.map ToolDef.name).Nodup := by
  exact ⟨rfl, rfl, rfl, by decide, rfl, by decide⟩

/-- Claim C7: on a callback whose code exchange succeeds, the handler writes
the new credential keyed by the state parameter with
expiresAt = now + ttl (ttl in seconds, stored in milliseconds) so that it
is retrievable from the token store, and sends the confirmation page naming
the user; on exchange failure it answers the 500 diagnostic and the store
is returned unchanged. -/
theorem c7_callback (store : Store) (now : Int) (codeQ stateQ : Option String)
    (exchange : String → Except String ExchangeData) (d : ExchangeData) (e : String) :
    (exchange (jsOrStr codeQ "") = Except.ok d →
      storeGet (authMetaCallback store now codeQ stateQ exchange).1 (jsOrStr stateQ "default") =
        some ⟨d.access_token, some (now + d.expires_in * 1000)⟩ ∧
      (authMetaCallback store now codeQ stateQ exchange).2 =
        .html ("✅ Meta Ads Connected! User: " ++ jsOrStr stateQ "default" ++
               ". Token saved, you can now use Claude tools.")) ∧
    (exchange (jsOrStr codeQ "") = Except.error e →
      (authMetaCallback store now codeQ stateQ exchange).1 = store ∧
      (authMetaCallback store now codeQ stateQ exchange).2 =
        .err500 "OAuth exchange failed" e) := by
  constructor
  · intro h
    unfold authMetaCallback
    dsimp only
    rw [h]
    exact ⟨storeGet_storeSet store (jsOrStr stateQ "default") _, rfl⟩
  · intro h
    unfold authMetaCallback
    dsimp only
    rw [h]
    exact ⟨rfl, rfl⟩

/-- Witness for c7_callback: both branches instantiated at concrete inputs,
with the hypotheses discharged by evaluation. -/
theorem c7_callback_witness :
    (storeGet (authMetaCallback [] 5 (some "c") (some "alice")
        (fun _ => Except.ok ⟨"tokA", 60⟩)).1 "alice" = some ⟨"tokA", some 60005⟩ ∧
      (authMetaCallback [] 5 (some "c") (some "alice")
        (fun _ => Except.ok ⟨"tokA", 60⟩)).2 =
        .html ("✅ Meta Ads Connected! User: alice" ++
               ". Token saved, you can now use Claude tools.")) ∧
    ((authMetaCallback store0 5 (some "c") (some "alice")
        (fun _ => Except.error "denied")).1 = store0 ∧
      (authMetaCallback store0 5 (some "c") (some "alice")
        (fun _ => Except.error "denied")).2 = .err500 "OAuth exchange failed" "denied") := by
  constructor
  · have h := (c7_callback [] 5 (some "c") (some "alice")
      (fun _ => Except.ok ⟨"tokA", 60⟩) ⟨"tokA", 60⟩ "unused").1 rfl
    exact h
  · have h := (c7_callback store0 5 (some "c") (some "alice")
      (fun _ => Except.error "denied") ⟨"", 0⟩ "denied").2 rfl
    exact h

/-- Claim C8, as stated, is false on part_001: a meta_ads_query tools/call
whose arguments omit limit is issued upstream with limit 10, not 25. -/
theorem c8_counterexample :
    (mcpPost env0 store0 fetch0
      ⟨"tools/call", some 3, none, some "meta_ads_query", argsQuery0⟩).calls =
      [Outbound.getCollection "campaigns" 10 "tok0"] ∧
    ¬ (mcpPost env0 store0 fetch0
      ⟨"tools/call", some 3, none, some "meta_ads_query", argsQuery0⟩).calls =
      [Outbound.getCollection "campaigns" 25 "tok0"] := by
  exact ⟨rfl, by decide⟩

/-- Claim C8 amended: with limit omitted, server.js issues the connector
query with the destructuring default 25, while part_001 issues the Graph
API query with `args.limit || 10`, that is default 10 (and part_000's mock
query also defaults to 25). -/
theorem c8_default_limit (env : Env) (pd : PdCall → Except String PdData)
    (store : Store) (fetch : Outbound → String) (tok : Tokens)
    (rid : Option Int) (uid : Option String)
    (rt oid st dp bd : Option String) (ms : Option (List String)) :
    (handleMCPRequest env true pd
      ⟨"tools/call", rid, uid, some "meta_ads_query", ⟨rt, oid, none, st, dp, ms, bd⟩⟩).calls =
      [PdCall.listResources (jsStr rt) 25 (jsTruthyStr st)] ∧
    executeToolP0 "meta_ads_query" ⟨rt, oid, none, st, dp, ms, bd⟩ =
      .mockQuery (jsStr rt) 25 st ∧
    (mcpPost env (("default", tok) :: store) fetch
      ⟨"tools/call", rid, uid, some "meta_ads_query", ⟨rt, oid, none, st, dp, ms, bd⟩⟩).calls =
      [Outbound.getCollection (jsStr rt) 10 tok.accessToken] := by
  exact ⟨rfl, rfl, rfl⟩

/-- Claim C9: initialize is answered with a fixed capability payload,
identical across any two requests and any dispatcher state (only the echoed
id varies with the request), and handling it changes no server state: the
part_001 store comes back unchanged and no upstream call is made. -/
theorem c9_init_idempotent (env env2 : Env) (auth auth2 : Bool)
    (pd pd2 : PdCall → Except String PdData) (store : Store) (fetch : Outbound → String)
    (r1 r2 : Option Int) (u1 u2 n1 n2 : Option String) (a1 a2 : Args) :
    handleMCPRequest env auth pd ⟨"initialize", r1, u1, n1, a1⟩ =
      ⟨[], 200, .result r1 (.initRes initSrv)⟩ ∧
    (handleMCPRequest env auth pd ⟨"initialize", r1, u1, n1, a1⟩).resp =
      .result r1 (.initRes initSrv) ∧
    (handleMCPRequest env2 auth2 pd2 ⟨"initialize", r2, u2, n2, a2⟩).resp =
      .result r2 (.initRes initSrv) ∧
    mcpPost env store fetch ⟨"initialize", r1, u1, n1, a1⟩ =
      ⟨store, [], 200, .result r1 (.initRes initPart001)⟩ ∧
    handleMCPRequestP0 ⟨"initialize", r1, u1, n1, a1⟩ =
      ⟨200, .result r1 (.initRes initSrv)⟩ := by
  exact ⟨rfl, rfl, rfl, rfl, rfl⟩
